import Mathlib

/-!
Shallow embedding of the campaign scheduling and trigger-evaluation engine of
the marketing-agent repository (backend/app/services/campaign_scheduler.py and
backend/app/api/scheduling.py), together with theorems settling the spec claims.

Python dictionaries holding trigger configurations are modelled as structures
of optional fields (absent key and a `None` value are conflated, as the source
only reads the keys with `.get`).  Python truthiness of the read values is
modelled explicitly (`truthyStr`, `truthyInt`).  Machine time is a `Nat`
parameter; database sessions are explicit `Db` values threaded through the
functions; exceptions are `Except` values.
-/

namespace MarketingAgent

/-- Decidable equality for `Except` values (used to evaluate the model on
concrete inputs). -/
def exceptDecEq {ε α : Type} [DecidableEq ε] [DecidableEq α] :
    DecidableEq (Except ε α)
  | .error a, .error b =>
      if h : a = b then .isTrue (by rw [h])
      else .isFalse (fun hh => h (Except.error.inj hh))
  | .error _, .ok _ => .isFalse (fun hh => Except.noConfusion hh)
  | .ok _, .error _ => .isFalse (fun hh => Except.noConfusion hh)
  | .ok a, .ok b =>
      if h : a = b then .isTrue (by rw [h])
      else .isFalse (fun hh => h (Except.ok.inj hh))

instance {ε α : Type} [DecidableEq ε] [DecidableEq α] :
    DecidableEq (Except ε α) := exceptDecEq

/-- `CampaignStatus` enum (models/campaign.py). -/
inductive CampaignStatus where
  | draft | scheduled | active | paused | completed | failed
deriving DecidableEq, Repr

/-- `TriggerType` enum (models/campaign.py). -/
inductive TriggerType where
  | manual | scheduled | recurring | webhook | event | condition
deriving DecidableEq, Repr

/-- `TriggerType(value)` construction: `some` on a valid enum value, `none`
models the `ValueError` raised on any other value, `None` included. -/
def TriggerType.ofValue : Option String → Option TriggerType
  | some "manual" => some .manual
  | some "scheduled" => some .scheduled
  | some "recurring" => some .recurring
  | some "webhook" => some .webhook
  | some "event" => some .event
  | some "condition" => some .condition
  | _ => none

/-- One condition clause of a `condition` trigger, as read by
`_evaluate_conditions` with `.get`.  Metric values are modelled as `Int`
(the source placeholder metric value is the constant `0.0`). -/
structure Condition where
  type : Option String := none
  metric : Option String := none
  threshold : Option Int := none
  operator : Option String := none
  start_time : Option Int := none
  end_time : Option Int := none
  event_name : Option String := none
deriving DecidableEq, Repr

/-- A trigger configuration document: the keys the engine reads. -/
structure TriggerConfig where
  type : Option String := none
  run_at : Option String := none
  interval_type : Option String := none
  interval_value : Option Int := none
  cron_expression : Option String := none
  event_name : Option String := none
  conditions : List Condition := []
deriving DecidableEq, Repr

/-- Python truthiness of `dict.get(key)` for a string-valued key:
falsy when absent (`None`) or the empty string. -/
def truthyStr : Option String → Bool
  | none => false
  | some s => s ≠ ""

/-- Python truthiness of `dict.get(key)` for an integer-valued key:
falsy when absent (`None`) or zero. -/
def truthyInt : Option Int → Bool
  | none => false
  | some n => n ≠ 0

/-- Split a character list on a separator character (the pieces, in order,
separators dropped; always at least one piece). -/
def splitChar (sep : Char) : List Char → List (List Char)
  | [] => [[]]
  | c :: rest =>
      let r := splitChar sep rest
      if c = sep then [] :: r
      else
        match r with
        | h :: t => (c :: h) :: t
        | [] => [[c]]

/-- A non-empty list of decimal digits. -/
def digitsOnly (cs : List Char) : Bool :=
  cs ≠ [] && cs.all Char.isDigit

/-- Decimal value of a digit list. -/
def digitsVal (cs : List Char) : Nat :=
  cs.foldl (fun a c => a * 10 + (c.toNat - 48)) 0

/-- A digit string whose value lies in `[lo, hi]`. -/
def natInRange (lo hi : Nat) (cs : List Char) : Bool :=
  digitsOnly cs && decide (lo ≤ digitsVal cs) && decide (digitsVal cs ≤ hi)

/-- Modelled from the spec: one atom of a cron field for the external cron
library (`apscheduler.triggers.cron`, not in src/) — a star, a single value
in range, or an ascending range `a-b`. -/
def cronAtomValid (lo hi : Nat) (cs : List Char) : Bool :=
  cs = ['*'] || natInRange lo hi cs ||
    (match splitChar '-' cs with
     | [a, b] =>
         natInRange lo hi a && natInRange lo hi b &&
           decide (digitsVal a ≤ digitsVal b)
     | _ => false)

/-- Modelled from the spec: one item of a cron field — an atom, optionally
with a positive numeric `/step`. -/
def cronItemValid (lo hi : Nat) (cs : List Char) : Bool :=
  match splitChar '/' cs with
  | [a] => cronAtomValid lo hi a
  | [a, st] => cronAtomValid lo hi a && digitsOnly st && decide (digitsVal st ≠ 0)
  | _ => false

/-- Modelled from the spec: a whole cron field — a non-empty comma-separated
list of items. -/
def cronFieldValid (lo hi : Nat) (cs : List Char) : Bool :=
  cs ≠ [] && (splitChar ',' cs).all (cronItemValid lo hi)

/-- Modelled from the spec: validity of a 5-field cron expression
(`minute hour day month day_of_week`), as checked by the external cron
library used by `CronTrigger.from_crontab` (not in src/).  Splitting on
spaces and dropping empty pieces models Python `str.split()`. -/
def cronValid (s : String) : Bool :=
  match (splitChar ' ' s.toList).filter (fun f => f ≠ []) with
  | [mi, h, d, mo, dw] =>
      cronFieldValid 0 59 mi && cronFieldValid 0 23 h &&
        cronFieldValid 1 31 d && cronFieldValid 1 12 mo &&
        cronFieldValid 0 6 dw
  | _ => false

/-- Modelled from the spec: the date part `YYYY-MM-DD` of an ISO-8601
string. -/
def isoDateValid (cs : List Char) : Bool :=
  match splitChar '-' cs with
  | [y, mo, da] =>
      decide (y.length = 4) && decide (mo.length = 2) && decide (da.length = 2) &&
        digitsOnly y && natInRange 1 12 mo && natInRange 1 31 da
  | _ => false

/-- Modelled from the spec: the time part `HH:MM:SS` of an ISO-8601
string. -/
def isoTimeValid (cs : List Char) : Bool :=
  match splitChar ':' cs with
  | [h, mi, se] =>
      decide (h.length = 2) && decide (mi.length = 2) && decide (se.length = 2) &&
        natInRange 0 23 h && natInRange 0 59 mi && natInRange 0 59 se
  | _ => false

/-- Modelled from the spec: `datetime.fromisoformat` (stdlib, not in src/) —
an ISO-8601 date `YYYY-MM-DD`, optionally followed by `THH:MM:SS`. -/
def isoValid (s : String) : Bool :=
  match splitChar 'T' s.toList with
  | [d] => isoDateValid d
  | [d, t] => isoDateValid d && isoTimeValid t
  | _ => false

/-- Errors produced for the condition clauses of a conditional trigger:
`Condition {i}: type is required` for each clause with a falsy `type`
(`validate_trigger_config`, enumerate loop). -/
def conditionErrors (i : Nat) : List Condition → List String
  | [] => []
  | c :: rest =>
      (if truthyStr c.type then [] else
        ["Condition " ++ toString i ++ ": type is required"]) ++
        conditionErrors (i + 1) rest

/-- `TriggerConfigurationService.validate_trigger_config`
(campaign_scheduler.py lines 450-503). -/
def validate_trigger_config (trigger_config : TriggerConfig) : List String :=
  if ¬ truthyStr trigger_config.type then ["Trigger type is required"]
  else
    match TriggerType.ofValue trigger_config.type with
    | none =>
        ["Invalid trigger type: " ++ (trigger_config.type.getD "")]
    | some tt =>
      match tt with
      | .scheduled =>
          if ¬ truthyStr trigger_config.run_at then
            ["run_at is required for scheduled triggers"]
          else if isoValid (trigger_config.run_at.getD "") then []
          else ["Invalid run_at format"]
      | .recurring =>
          let interval_type := trigger_config.interval_type
          (if ¬ truthyStr interval_type then
            ["interval_type is required for recurring triggers"]
          else if ¬ (interval_type.getD "" ∈
              ["minutes", "hours", "days", "weeks", "cron"]) then
            ["Invalid interval_type: " ++ interval_type.getD ""]
          else []) ++
          (if interval_type = some "cron" then
            if ¬ truthyStr trigger_config.cron_expression then
              ["cron_expression is required for cron triggers"]
            else []
          else
            if ¬ truthyInt trigger_config.interval_value then
              ["interval_value is required for recurring triggers"]
            else [])
      | .event =>
          if ¬ truthyStr trigger_config.event_name then
            ["event_name is required for event triggers"]
          else []
      | .condition =>
          (if trigger_config.conditions = [] then
            ["At least one condition is required for conditional triggers"]
          else []) ++ conditionErrors 0 trigger_config.conditions
      | _ => []

/-- An APScheduler trigger object, as constructed by `schedule_campaign`. -/
inductive ApsTrigger where
  | date (run_at : String)
  | intervalMinutes (v : Int)
  | intervalHours (v : Int)
  | intervalDays (v : Int)
  | intervalWeeks (v : Int)
  | cron (expr : String)
deriving DecidableEq, Repr

/-- A job registered in the APScheduler job store: its id, trigger, and the
`args=[campaign.id, trigger_config]` passed to `_execute_campaign`. -/
structure Job where
  id : String
  trigger : ApsTrigger
  arg_campaign_id : Nat
  arg_trigger_config : TriggerConfig
deriving DecidableEq, Repr

/-- The scheduler's job store (`self.scheduler`). -/
structure SchedState where
  jobs : List Job
deriving DecidableEq, Repr

/-- `scheduler.get_job(job_id)`. -/
def SchedState.get_job (st : SchedState) (job_id : String) : Option Job :=
  st.jobs.find? (fun j => j.id = job_id)

/-- `scheduler.remove_job(job_id)`. -/
def SchedState.remove_job (st : SchedState) (job_id : String) : SchedState :=
  ⟨st.jobs.filter (fun j => j.id ≠ job_id)⟩

/-- `scheduler.add_job(..., replace_existing=True)`: replace the job with the
same id when present, append otherwise. -/
def SchedState.add_job (st : SchedState) (j : Job) : SchedState :=
  if st.jobs.any (fun o => o.id = j.id) then
    ⟨st.jobs.map (fun o => if o.id = j.id then j else o)⟩
  else ⟨st.jobs ++ [j]⟩

/-- The trigger computed by the branch ladder of `schedule_campaign`
(campaign_scheduler.py lines 66-107): `.ok none` models the early
`return None` of the manual and event branches, `.error` a raised
exception (ValueError from `TriggerType(...)` or the invalid interval /
trigger type, the cron parse failure of `CronTrigger.from_crontab`, or the
`datetime.fromisoformat` failure). -/
def computeTrigger (trigger_config : TriggerConfig) :
    Except String (Option ApsTrigger) :=
  match TriggerType.ofValue trigger_config.type with
  | none =>
      .error ("Invalid trigger type value: " ++ (trigger_config.type.getD "None"))
  | some .manual => .ok none
  | some .scheduled =>
      match trigger_config.run_at with
      | none => .error "TypeError: fromisoformat argument must be str"
      | some s =>
          if isoValid s then .ok (some (.date s))
          else .error ("Invalid isoformat string: " ++ s)
  | some .recurring =>
      let interval_value := trigger_config.interval_value.getD 1
      match trigger_config.interval_type with
      | some "minutes" => .ok (some (.intervalMinutes interval_value))
      | some "hours" => .ok (some (.intervalHours interval_value))
      | some "days" => .ok (some (.intervalDays interval_value))
      | some "weeks" => .ok (some (.intervalWeeks interval_value))
      | some "cron" =>
          (match trigger_config.cron_expression with
           | none => .error "AttributeError: NoneType has no attribute split"
           | some s =>
               if cronValid s then .ok (some (.cron s))
               else .error ("Invalid cron expression: " ++ s))
      | it => .error ("Invalid interval type: " ++ it.getD "None")
  | some .event => .ok none
  | some .condition => .ok (some (.intervalMinutes 5))
  | some .webhook =>
      .error "Invalid trigger type: TriggerType.WEBHOOK"

/-- `CampaignScheduler.schedule_campaign` (campaign_scheduler.py lines
54-121): remove any existing job for the campaign, compute the trigger,
then either return early (`.ok none`), surface the exception (`.error`),
or register the job and return its id. -/
def schedule_campaign (st : SchedState) (campaign_id : Nat)
    (trigger_config : TriggerConfig) :
    SchedState × Except String (Option String) :=
  let job_id := "campaign_" ++ toString campaign_id
  let st1 :=
    if (st.get_job job_id).isSome then st.remove_job job_id else st
  match computeTrigger trigger_config with
  | .error e => (st1, .error e)
  | .ok none => (st1, .ok none)
  | .ok (some trig) =>
      (st1.add_job ⟨job_id, trig, campaign_id, trigger_config⟩,
        .ok (some job_id))

/-- Number of jobs registered for a campaign. -/
def countJobs (st : SchedState) (campaign_id : Nat) : Nat :=
  (st.jobs.filter (fun j => j.id = "campaign_" ++ toString campaign_id)).length

/-- `PricingTier` enum (models/payment.py). -/
inductive PricingTier where
  | basic | pro | enterprise
deriving DecidableEq, Repr

/-- `settings.PRICING_TIERS[tier]["campaign_limit"]` (core/config.py):
10 for basic, 50 for pro, -1 (unlimited) for enterprise. -/
def campaignLimit : PricingTier → Int
  | .basic => 10
  | .pro => 50
  | .enterprise => -1

/-- A `Subscription` row (models/payment.py): the fields read by
`check_scheduling_conflicts`. -/
structure Subscription where
  status : String
  tier : PricingTier
deriving DecidableEq, Repr

/-- A `Customer` row with its subscriptions. -/
structure Customer where
  subscriptions : List Subscription
deriving DecidableEq, Repr

/-- A `User` row: id and optional customer. -/
structure User where
  id : Nat
  customer : Option Customer
deriving DecidableEq, Repr

/-- A `Campaign` row: the fields read by the scheduling engine.
`config_trigger` models `campaign.config.get("trigger")`. -/
structure Campaign where
  id : Nat
  name : String
  user_id : Nat
  status : CampaignStatus
  config_trigger : Option TriggerConfig := none
deriving DecidableEq, Repr

/-- A `CampaignExecution` row (models/campaign.py).  `started_at` carries the
insert-time server default. The two metadata shapes in the source are the
scheduler's `{trigger_config, scheduled_execution}` and the manual
endpoint's `{triggered_by_user}`. -/
structure CampaignExecution where
  id : Nat
  campaign_id : Nat
  triggered_by : Option String
  status : String
  started_at : Option Nat
  completed_at : Option Nat := none
  error_message : Option String := none
  result_posts_created : Option Nat := none
  result_emails_sent : Option Nat := none
  result_sms_sent : Option Nat := none
  meta_trigger_config : Option TriggerConfig := none
  meta_scheduled_execution : Bool := false
  meta_triggered_by_user : Option Nat := none
deriving DecidableEq, Repr

/-- The database state visible to the engine: campaigns, users, executions,
and the next auto-increment execution id. -/
structure Db where
  campaigns : List Campaign
  users : List User := []
  executions : List CampaignExecution := []
  next_exec_id : Nat := 0
deriving DecidableEq, Repr

/-- `db.query(Campaign).filter(Campaign.id == campaign_id).first()`. -/
def Db.findCampaign (db : Db) (campaign_id : Nat) : Option Campaign :=
  db.campaigns.find? (fun c => c.id = campaign_id)

/-- An error recorded by `ErrorTracker.track_error`, with the category,
service and structured context passed by `_execute_campaign`. -/
structure TrackedError where
  category : String
  service : String
  error_message : String
  ctx_campaign_id : Nat
  ctx_trigger_config : TriggerConfig
deriving DecidableEq, Repr

/-- Outcome of the opaque run step inside `_run_campaign_execution`
(the simulated campaign action): success, or an exception whose text is
`msg`. -/
inductive RunOutcome where
  | success
  | failure (msg : String)
deriving DecidableEq, Repr

/-- `_get_metric_value` (campaign_scheduler.py lines 312-316): the source
placeholder always returns `0.0`, modelled as the integer 0. -/
def get_metric_value (_campaign : Campaign) (_metric : Option String) : Int :=
  0

/-- `_evaluate_conditions` (campaign_scheduler.py lines 269-310), with the
clock hour (`datetime.now().hour`) passed explicitly.  `.error` models a
`TypeError` raised by an order comparison against `None`; Python's chained
`start_time <= current_hour < end_time` short-circuits, so `end_time` is
only compared when the first comparison holds. -/
def evaluate_conditions (campaign : Campaign) (hour : Int) :
    List Condition → Except String Bool
  | [] => .ok true
  | condition :: rest =>
      if condition.type = some "metric_threshold" then
        let operator := condition.operator.getD "gte"
        let metric_value := get_metric_value campaign condition.metric
        if operator = "gte" then
          match condition.threshold with
          | none => .error "TypeError: < not supported with NoneType"
          | some threshold =>
              if metric_value < threshold then .ok false
              else evaluate_conditions campaign hour rest
        else if operator = "lte" then
          match condition.threshold with
          | none => .error "TypeError: > not supported with NoneType"
          | some threshold =>
              if metric_value > threshold then .ok false
              else evaluate_conditions campaign hour rest
        else if operator = "eq" then
          if condition.threshold ≠ some metric_value then .ok false
          else evaluate_conditions campaign hour rest
        else evaluate_conditions campaign hour rest
      else if condition.type = some "time_window" then
        match condition.start_time with
        | none => .error "TypeError: <= not supported with NoneType"
        | some start_time =>
            if start_time ≤ hour then
              match condition.end_time with
              | none => .error "TypeError: < not supported with NoneType"
              | some end_time =>
                  if hour < end_time then
                    evaluate_conditions campaign hour rest
                  else .ok false
            else .ok false
      else if condition.type = some "external_event" then
        evaluate_conditions campaign hour rest
      else evaluate_conditions campaign hour rest

/-- The condition gate of `_execute_campaign` (lines 235-239): conditions are
evaluated only for `condition`-type triggers. -/
def conditionGate (campaign : Campaign) (hour : Int)
    (trigger_config : TriggerConfig) : Except String Bool :=
  if trigger_config.type = some "condition" then
    evaluate_conditions campaign hour trigger_config.conditions
  else .ok true

/-- `_run_campaign_execution` (campaign_scheduler.py lines 318-360): mark the
execution running, perform the run step, then either complete it with a
result summary or — on exception — mark it failed with the exception text
and completion time, and re-raise (`.error`). -/
def run_campaign_execution (run : RunOutcome) (now : Nat)
    (execution : CampaignExecution) :
    CampaignExecution × Except String Unit :=
  let execution := { execution with status := "running", started_at := some now }
  match run with
  | .success =>
      ({ execution with
          status := "completed"
          completed_at := some now
          result_posts_created := some 1
          result_emails_sent := some 0
          result_sms_sent := some 0 }, .ok ())
  | .failure msg =>
      ({ execution with
          status := "failed"
          error_message := some msg
          completed_at := some now }, .error msg)

/-- The tracked error built by the exception handler of `_execute_campaign`
(lines 258-265). -/
def mkTracked (msg : String) (campaign_id : Nat)
    (trigger_config : TriggerConfig) : TrackedError :=
  ⟨"CAMPAIGN_EXECUTION_ERROR", "campaign_scheduler", msg,
    campaign_id, trigger_config⟩

/-- `db.add(execution); db.commit()` for a fresh execution row: append the
record and advance the auto-increment id. -/
def insertExec (db : Db) (e : CampaignExecution) : Db :=
  { db with
      executions := db.executions ++ [e]
      next_exec_id := db.next_exec_id + 1 }

/-- The pending execution record created by `_execute_campaign`
(lines 241-253). -/
def mkPendingExec (db : Db) (campaign_id : Nat)
    (trigger_config : TriggerConfig) (now : Nat) : CampaignExecution :=
  { id := db.next_exec_id
    campaign_id := campaign_id
    triggered_by := trigger_config.type
    status := "pending"
    started_at := some now
    meta_trigger_config := some trigger_config
    meta_scheduled_execution := true }

/-- `_execute_campaign` (campaign_scheduler.py lines 221-267): look up the
campaign, abandon when missing or not active, gate on conditions for
`condition` triggers, create a pending execution, run it, and catch any
exception, routing it to the error tracker.  The function's total return
type — it always produces a database and a tracked-error list, never an
`Except.error` — models that the exception is swallowed at this layer. -/
def execute_campaign (db : Db) (run : RunOutcome) (now : Nat) (hour : Int)
    (campaign_id : Nat) (trigger_config : TriggerConfig) :
    Db × List TrackedError :=
  match db.findCampaign campaign_id with
  | none => (db, [])
  | some campaign =>
      if campaign.status ≠ CampaignStatus.active then (db, [])
      else
        match conditionGate campaign hour trigger_config with
        | .error e => (db, [mkTracked e campaign_id trigger_config])
        | .ok false => (db, [])
        | .ok true =>
            let execution := mkPendingExec db campaign_id trigger_config now
            let er := run_campaign_execution run now execution
            (insertExec db er.1,
              match er.2 with
              | .ok _ => []
              | .error msg => [mkTracked msg campaign_id trigger_config])

/-- The pending execution record inserted by the manual-execute endpoint
itself (api/scheduling.py lines 302-311). -/
def manualPendingExec (db : Db) (user_id campaign_id : Nat) (now : Nat) :
    CampaignExecution :=
  { id := db.next_exec_id
    campaign_id := campaign_id
    triggered_by := some "manual"
    status := "pending"
    started_at := some now
    meta_triggered_by_user := some user_id }

/-- `execute_campaign_manually` (api/scheduling.py lines 287-320): find the
campaign owned by the user (`.error` models the 404), insert a pending
execution with `triggered_by="manual"`, then invoke `_execute_campaign`
with a manual trigger config; the endpoint returns the execution id of the
record it created itself. -/
def execute_campaign_manually (db : Db) (run : RunOutcome) (now : Nat)
    (hour : Int) (user_id campaign_id : Nat) :
    (Db × List TrackedError) × Except String Nat :=
  match db.campaigns.find?
      (fun c => c.id = campaign_id ∧ c.user_id = user_id) with
  | none => ((db, []), .error "404: Campaign not found")
  | some _ =>
      let execution := manualPendingExec db user_id campaign_id now
      let db1 := insertExec db execution
      let trigger_config : TriggerConfig := { type := some "manual" }
      ((execute_campaign db1 run now hour campaign_id trigger_config),
        .ok execution.id)

/-- A single-quote character, for the conflict message text. -/
def sq : String := (Char.ofNat 39).toString

/-- `_check_schedule_overlap` (campaign_scheduler.py lines 202-219): two
configs overlap exactly when both are `recurring` and their `interval_type`
and `interval_value` coincide. -/
def check_schedule_overlap (trigger1 trigger2 : TriggerConfig) : Bool :=
  if trigger1.type = some "recurring" ∧ trigger2.type = some "recurring" then
    if trigger1.interval_type = trigger2.interval_type ∧
        trigger1.interval_value = trigger2.interval_value then true
    else false
  else false

/-- The quota branch of `check_scheduling_conflicts` (lines 162-180):
when the owner has an active subscription whose tier limit is not -1 and
the owner's count of Active campaigns is at or above the limit, one quota
conflict is emitted. -/
def quotaConflicts (db : Db) (campaign : Campaign) : List String :=
  match db.users.find? (fun u => u.id = campaign.user_id) with
  | none => []
  | some user =>
      match user.customer with
      | none => []
      | some customer =>
          if customer.subscriptions = [] then []
          else
            match customer.subscriptions.find?
                (fun s => s.status = "active") with
            | none => []
            | some active_subscription =>
                let campaign_limit := campaignLimit active_subscription.tier
                let active_campaigns :=
                  (db.campaigns.filter (fun c =>
                    c.user_id = user.id ∧
                      c.status = CampaignStatus.active)).length
                if campaign_limit ≠ -1 ∧
                    campaign_limit ≤ (active_campaigns : Int) then
                  ["Campaign limit reached (" ++ toString campaign_limit ++ ")"]
                else []

/-- The other Active campaigns of the same owner considered by the overlap
branch of `check_scheduling_conflicts` (lines 185-189). -/
def otherActiveCampaigns (db : Db) (campaign_id user_id : Nat) :
    List Campaign :=
  db.campaigns.filter (fun c =>
    c.user_id = user_id ∧ c.id ≠ campaign_id ∧
      c.status = CampaignStatus.active)

/-- The overlap conflict message for a colliding campaign (line 195). -/
def overlapMsg (name : String) : String :=
  "Schedule overlaps with campaign " ++ sq ++ name ++ sq

/-- The overlap branch of `check_scheduling_conflicts` (lines 182-196):
for `scheduled`/`recurring` configs, compare against the stored trigger of
each other Active campaign of the same owner. -/
def overlapConflicts (db : Db) (campaign_id : Nat) (campaign : Campaign)
    (trigger_config : TriggerConfig) : List String :=
  if trigger_config.type = some "scheduled" ∨
      trigger_config.type = some "recurring" then
    (otherActiveCampaigns db campaign_id campaign.user_id).filterMap
      (fun other =>
        match other.config_trigger with
        | none => none
        | some other_trigger =>
            if check_schedule_overlap trigger_config other_trigger then
              some (overlapMsg other.name)
            else none)
  else []

/-- `check_scheduling_conflicts` (campaign_scheduler.py lines 147-200). -/
def check_scheduling_conflicts (db : Db) (campaign_id : Nat)
    (trigger_config : TriggerConfig) : List String :=
  match db.findCampaign campaign_id with
  | none => ["Campaign not found"]
  | some campaign =>
      quotaConflicts db campaign ++
        overlapConflicts db campaign_id campaign trigger_config

/-- After the remove-existing-job step of `schedule_campaign`, no job with the
given id remains in the store. -/
lemma filter_jobs_after_removal (st : SchedState) (jid : String) :
    ((if (st.get_job jid).isSome then st.remove_job jid else st).jobs.filter
      (fun j => j.id = jid)) = [] := by
  by_cases h : (st.get_job jid).isSome
  · simp only [h, if_true, SchedState.remove_job]
    simp [List.filter_filter]
  · rw [if_neg h]
    rw [List.filter_eq_nil_iff]
    intro a ha
    have h2 : st.get_job jid = none := by
      cases hh : st.get_job jid
      · rfl
      · rw [hh] at h; simp at h
    have h3 := List.find?_eq_none.mp h2 a ha
    simpa using h3

/-- Adding the canonical job for a campaign to a store holding none leaves
exactly one job for the campaign. -/
lemma countJobs_add_one (st : SchedState) (cid : Nat) (trig : ApsTrigger)
    (cfg : TriggerConfig)
    (h : st.jobs.filter (fun o => o.id = "campaign_" ++ toString cid) = []) :
    countJobs (st.add_job ⟨"campaign_" ++ toString cid, trig, cid, cfg⟩) cid
      = 1 := by
  unfold countJobs SchedState.add_job
  have hany : st.jobs.any (fun o => o.id = "campaign_" ++ toString cid)
      = false := by
    rw [← Bool.not_eq_true, List.any_eq_true]
    rintro ⟨x, hx, hpx⟩
    exact (List.filter_eq_nil_iff.mp h x hx) hpx
  simp [hany, List.filter_append, h]

/-- No job for the campaign survives the removal step. -/
lemma countJobs_after_removal (st : SchedState) (cid : Nat) :
    countJobs
      (if (st.get_job ("campaign_" ++ toString cid)).isSome
       then st.remove_job ("campaign_" ++ toString cid) else st) cid = 0 := by
  unfold countJobs
  rw [filter_jobs_after_removal]
  rfl

/-- A `schedule_campaign` call that registers a job returns the canonical
job id and leaves exactly one job for the campaign. -/
lemma schedule_campaign_ok_some (st : SchedState) (cid : Nat)
    (cfg : TriggerConfig) (jid : String)
    (h : (schedule_campaign st cid cfg).2 = .ok (some jid)) :
    jid = "campaign_" ++ toString cid ∧
      countJobs (schedule_campaign st cid cfg).1 cid = 1 := by
  unfold schedule_campaign at h ⊢
  cases hct : computeTrigger cfg with
  | error e => rw [hct] at h; exact Except.noConfusion h
  | ok t =>
      cases t with
      | none => rw [hct] at h; exact Option.noConfusion (Except.ok.inj h)
      | some trig =>
          rw [hct] at h
          exact ⟨(Option.some.inj (Except.ok.inj h)).symm,
            countJobs_add_one _ cid trig cfg (filter_jobs_after_removal st _)⟩

/-- A `schedule_campaign` call that raises leaves no job for the campaign. -/
lemma schedule_campaign_error_countJobs (st : SchedState) (cid : Nat)
    (cfg : TriggerConfig) (e : String)
    (h : (schedule_campaign st cid cfg).2 = .error e) :
    countJobs (schedule_campaign st cid cfg).1 cid = 0 := by
  unfold schedule_campaign at h ⊢
  cases hct : computeTrigger cfg with
  | error e2 => exact countJobs_after_removal st cid
  | ok t =>
      cases t with
      | none => rw [hct] at h; exact Except.noConfusion h
      | some trig => rw [hct] at h; exact Except.noConfusion h

/-- A `schedule_campaign` call that returns `None` leaves no job for the
campaign. -/
lemma schedule_campaign_ok_none_countJobs (st : SchedState) (cid : Nat)
    (cfg : TriggerConfig)
    (h : (schedule_campaign st cid cfg).2 = .ok none) :
    countJobs (schedule_campaign st cid cfg).1 cid = 0 := by
  unfold schedule_campaign at h ⊢
  cases hct : computeTrigger cfg with
  | error e2 => rw [hct] at h; exact Except.noConfusion h
  | ok t =>
      cases t with
      | none => exact countJobs_after_removal st cid
      | some trig => rw [hct] at h; exact Option.noConfusion (Except.ok.inj h)

/-- A fire of `_execute_campaign` on a campaign id that does not exist
mutates nothing: no execution record is created or updated and no error is
tracked. -/
lemma execute_campaign_missing_eq (db : Db) (run : RunOutcome) (now : Nat)
    (hour : Int) (cid : Nat) (cfg : TriggerConfig)
    (hf : db.findCampaign cid = none) :
    execute_campaign db run now hour cid cfg = (db, []) := by
  unfold execute_campaign
  rw [hf]

/-- A fire of `_execute_campaign` on a campaign whose status is not Active
mutates nothing: no execution record is created or updated and no error is
tracked. -/
lemma execute_campaign_inactive_eq (db : Db) (run : RunOutcome) (now : Nat)
    (hour : Int) (cid : Nat) (cfg : TriggerConfig) (c : Campaign)
    (hf : db.findCampaign cid = some c) (hs : c.status ≠ .active) :
    execute_campaign db run now hour cid cfg = (db, []) := by
  unfold execute_campaign
  rw [hf]
  dsimp only
  simp [hs]

/-- A fire of `_execute_campaign` that passes the status check and the
condition gate appends exactly one execution record: the run outcome of the
pending record it creates. -/
lemma execute_campaign_active_executions (db : Db) (run : RunOutcome)
    (now : Nat) (hour : Int) (cid : Nat) (cfg : TriggerConfig) (c : Campaign)
    (hf : db.findCampaign cid = some c) (hs : c.status = .active)
    (hg : conditionGate c hour cfg = .ok true) :
    (execute_campaign db run now hour cid cfg).1.executions =
      db.executions ++
        [(run_campaign_execution run now (mkPendingExec db cid cfg now)).1] := by
  unfold execute_campaign
  rw [hf]
  dsimp only
  simp [hs, hg, insertExec]

/-- C1: on a run-step exception, the execution record is failed with the
exception text and completion stamp, the tracked error carries category
`CAMPAIGN_EXECUTION_ERROR` with context `{campaign_id, trigger_config}`,
and `_execute_campaign` returns normally. -/
theorem run_failure_marks_execution_failed_and_is_swallowed
    (db : Db) (msg : String) (now : Nat) (hour : Int) (cid : Nat)
    (cfg : TriggerConfig) (c : Campaign)
    (hf : db.findCampaign cid = some c) (hs : c.status = .active)
    (hg : conditionGate c hour cfg = .ok true) :
    ∃ e : CampaignExecution,
      execute_campaign db (.failure msg) now hour cid cfg =
        (insertExec db e, [mkTracked msg cid cfg]) ∧
      e.status = "failed" ∧ e.error_message = some msg ∧
      e.completed_at = some now := by
  refine ⟨(run_campaign_execution (.failure msg) now
      (mkPendingExec db cid cfg now)).1, ?_, rfl, rfl, rfl⟩
  unfold execute_campaign
  rw [hf]
  dsimp only
  simp only [hs, hg]
  rfl

/-- C2: a fire of `_execute_campaign` on a campaign that is not Active is
abandoned with no state transition, and the record the manual endpoint
created for such a fire stays `pending` with no completion. -/
theorem inactive_campaign_fire_abandoned_pending
    (db : Db) (run : RunOutcome) (now : Nat) (hour : Int)
    (uid cid : Nat) (c c2 : Campaign)
    (hf : db.findCampaign cid = some c) (hs : c.status ≠ .active)
    (hm : db.campaigns.find? (fun x => x.id = cid ∧ x.user_id = uid)
      = some c2) :
    (∀ cfg, execute_campaign db run now hour cid cfg = (db, [])) ∧
    ∃ e : CampaignExecution,
      (execute_campaign_manually db run now hour uid cid).1.1.executions =
        db.executions ++ [e] ∧
      e.status = "pending" ∧ e.completed_at = none := by
  refine ⟨fun cfg => execute_campaign_inactive_eq db run now hour cid cfg c
    hf hs, ?_⟩
  refine ⟨manualPendingExec db uid cid now, ?_, rfl, rfl⟩
  unfold execute_campaign_manually
  rw [hm]
  dsimp only
  rw [execute_campaign_inactive_eq
    (insertExec db (manualPendingExec db uid cid now)) run now hour cid
    { type := some "manual" } c hf hs]
  rfl

/-- Evaluating a condition list whose clauses are all `external_event` or of
an unrecognized type yields true. -/
lemma evaluate_conditions_permissive (c : Campaign) (hour : Int) :
    ∀ conds : List Condition,
      (∀ cd ∈ conds, cd.type ≠ some "metric_threshold" ∧
        cd.type ≠ some "time_window") →
      evaluate_conditions c hour conds = .ok true
  | [], _ => rfl
  | cd :: rest, h => by
      have hrest := evaluate_conditions_permissive c hour rest
        (fun x hx => h x (List.mem_cons_of_mem _ hx))
      obtain ⟨h1, h2⟩ := h cd (List.mem_cons_self _ _)
      unfold evaluate_conditions
      rw [if_neg h1, if_neg h2]
      split
      · exact hrest
      · exact hrest

/-- C10: every `external_event` clause and every clause of unrecognized type
is treated as satisfied, so a condition list of only such clauses evaluates
to true and the execution proceeds (a record is created). -/
theorem permissive_condition_clauses_execute
    (c : Campaign) (hour : Int) (conds : List Condition)
    (h : ∀ cd ∈ conds, cd.type ≠ some "metric_threshold" ∧
      cd.type ≠ some "time_window") :
    evaluate_conditions c hour conds = .ok true ∧
    (∀ (db : Db) (run : RunOutcome) (now cid : Nat) (cfg : TriggerConfig),
      db.findCampaign cid = some c → c.status = .active →
      cfg.type = some "condition" → cfg.conditions = conds →
      (execute_campaign db run now hour cid cfg).1.executions.length =
        db.executions.length + 1) := by
  have he := evaluate_conditions_permissive c hour conds h
  refine ⟨he, fun db run now cid cfg hf hs htype hconds => ?_⟩
  have hg : conditionGate c hour cfg = .ok true := by
    unfold conditionGate
    rw [if_pos htype, hconds]
    exact he
  rw [execute_campaign_active_executions db run now hour cid cfg c hf hs hg]
  simp

/-- C4 (amended): a scheduled fire that passes the status and condition
checks creates exactly one execution record; a fire abandoned because the
campaign is missing or not Active creates none; a manual invocation on an
Active campaign creates two records (one from the endpoint, one from
`_execute_campaign`). -/
theorem executions_created_per_fire
    (db : Db) (run : RunOutcome) (now : Nat) (hour : Int)
    (uid cid : Nat) (cfg : TriggerConfig) (c c2 : Campaign) :
    (db.findCampaign cid = none →
      (execute_campaign db run now hour cid cfg).1.executions.length =
        db.executions.length) ∧
    (db.findCampaign cid = some c → c.status = .active →
      conditionGate c hour cfg = .ok true →
      (execute_campaign db run now hour cid cfg).1.executions.length =
        db.executions.length + 1) ∧
    (db.findCampaign cid = some c → c.status ≠ .active →
      (execute_campaign db run now hour cid cfg).1.executions.length =
        db.executions.length) ∧
    (db.campaigns.find? (fun x => x.id = cid ∧ x.user_id = uid) = some c2 →
      db.findCampaign cid = some c → c.status = .active →
      (execute_campaign_manually db run now hour uid cid).1.1.executions.length
        = db.executions.length + 2) := by
  refine ⟨fun hn => ?_, fun hf hs hg => ?_, fun hf hs => ?_,
    fun hm hf hs => ?_⟩
  · rw [execute_campaign_missing_eq db run now hour cid cfg hn]
  · rw [execute_campaign_active_executions db run now hour cid cfg c hf hs hg]
    simp
  · rw [execute_campaign_inactive_eq db run now hour cid cfg c hf hs]
  · unfold execute_campaign_manually
    rw [hm]
    dsimp only
    rw [execute_campaign_active_executions
      (insertExec db (manualPendingExec db uid cid now)) run now hour cid
      { type := some "manual" } c hf hs rfl]
    simp [insertExec]

/-- A one-campaign database (campaign 1 Active, owner 1, no executions)
used to exhibit the double record created by a manual fire. -/
def twoExecDb : Db :=
  { campaigns := [⟨1, "c", 1, CampaignStatus.active, none⟩] }

/-- C4 counterexample: a single manual fire on an Active campaign with an
empty execution table leaves two execution records, not one. -/
theorem manual_fire_creates_two_executions :
    twoExecDb.executions.length = 0 ∧
    (execute_campaign_manually twoExecDb
        RunOutcome.success 5 0 1 1).1.1.executions.length = 2 := by
  constructor
  · rfl
  · decide

/-- C3: `schedule_campaign` is idempotent for job registration — two
successive schedulable calls for the same campaign id leave exactly one job
for the campaign, under the canonical id `campaign_{id}`. -/
theorem schedule_campaign_idempotent (st : SchedState) (cid : Nat)
    (cfg1 cfg2 : TriggerConfig) (j1 j2 : String)
    (h1 : (schedule_campaign st cid cfg1).2 = .ok (some j1))
    (h2 : (schedule_campaign (schedule_campaign st cid cfg1).1 cid cfg2).2 =
      .ok (some j2)) :
    countJobs (schedule_campaign (schedule_campaign st cid cfg1).1 cid cfg2).1
        cid = 1 ∧
      j1 = "campaign_" ++ toString cid ∧ j2 = "campaign_" ++ toString cid :=
  ⟨(schedule_campaign_ok_some _ _ _ _ h2).2,
    (schedule_campaign_ok_some _ _ _ _ h1).1,
    (schedule_campaign_ok_some _ _ _ _ h2).1⟩

/-- C3 witness: scheduling campaign 1 twice with recurring configs leaves
exactly one job. -/
theorem schedule_campaign_idempotent_witness :
    countJobs (schedule_campaign
      (schedule_campaign ⟨[]⟩ 1
        { type := some "recurring", interval_type := some "hours",
          interval_value := some 2 }).1 1
      { type := some "recurring", interval_type := some "days",
        interval_value := some 1 }).1 1 = 1 :=
  (schedule_campaign_idempotent ⟨[]⟩ 1
    { type := some "recurring", interval_type := some "hours",
      interval_value := some 2 }
    { type := some "recurring", interval_type := some "days",
      interval_value := some 1 }
    "campaign_1" "campaign_1" (by decide) (by decide)).1

/-- C9: when trigger computation inside `schedule_campaign` raises, the
campaign is left with no scheduled job — the previously registered job was
removed before the exception and is not preserved. -/
theorem failed_schedule_leaves_no_job (st : SchedState) (cid : Nat)
    (cfg : TriggerConfig) (e : String)
    (h : (schedule_campaign st cid cfg).2 = .error e) :
    countJobs (schedule_campaign st cid cfg).1 cid = 0 :=
  schedule_campaign_error_countJobs st cid cfg e h

/-- A scheduler state holding one job for campaign 1, used to show that a
failed re-schedule removes the prior job. -/
def preScheduledState : SchedState :=
  ⟨[⟨"campaign_1", .intervalMinutes 5, 1, {}⟩]⟩

/-- C9 witness: re-scheduling campaign 1 with an invalid interval type
raises and leaves the campaign with no job although one existed before. -/
theorem failed_schedule_leaves_no_job_witness :
    countJobs preScheduledState 1 = 1 ∧
    (schedule_campaign preScheduledState 1
      { type := some "recurring", interval_type := some "fortnights" }).2 =
        .error "Invalid interval type: fortnights" ∧
    countJobs (schedule_campaign preScheduledState 1
      { type := some "recurring", interval_type := some "fortnights" }).1 1
        = 0 :=
  ⟨by decide, by decide,
    failed_schedule_leaves_no_job preScheduledState 1
      { type := some "recurring", interval_type := some "fortnights" }
      "Invalid interval type: fortnights" (by decide)⟩

/-- C6 (amended): `schedule_campaign` returns null and registers no job for
Manual and Event configs; for a Webhook config it raises a `ValueError`
(registering no job) instead of returning null. -/
theorem schedule_manual_event_null_webhook_error (st : SchedState)
    (cid : Nat) (cfg : TriggerConfig) :
    ((cfg.type = some "manual" ∨ cfg.type = some "event") →
      (schedule_campaign st cid cfg).2 = .ok none ∧
        countJobs (schedule_campaign st cid cfg).1 cid = 0) ∧
    (cfg.type = some "webhook" →
      (schedule_campaign st cid cfg).2 =
          .error "Invalid trigger type: TriggerType.WEBHOOK" ∧
        countJobs (schedule_campaign st cid cfg).1 cid = 0) := by
  constructor
  · intro h
    have hct : computeTrigger cfg = .ok none := by
      rcases h with h | h
      · unfold computeTrigger
        rw [h]
        rfl
      · unfold computeTrigger
        rw [h]
        rfl
    have h2 : (schedule_campaign st cid cfg).2 = .ok none := by
      unfold schedule_campaign
      rw [hct]
    exact ⟨h2, schedule_campaign_ok_none_countJobs st cid cfg h2⟩
  · intro h
    have hct : computeTrigger cfg =
        .error "Invalid trigger type: TriggerType.WEBHOOK" := by
      unfold computeTrigger
      rw [h]
      rfl
    have h2 : (schedule_campaign st cid cfg).2 =
        .error "Invalid trigger type: TriggerType.WEBHOOK" := by
      unfold schedule_campaign
      rw [hct]
    exact ⟨h2, schedule_campaign_error_countJobs st cid cfg _ h2⟩

/-- C6 witness: an Event config yields a null job id and no registered
job. -/
theorem schedule_manual_event_null_webhook_error_witness :
    (schedule_campaign ⟨[]⟩ 2 { type := some "event" }).2 = .ok none ∧
      countJobs (schedule_campaign ⟨[]⟩ 2 { type := some "event" }).1 2 = 0 :=
  (schedule_manual_event_null_webhook_error ⟨[]⟩ 2
    { type := some "event" }).1 (Or.inr rfl)

/-- C6 counterexample: for a Webhook config `schedule_campaign` does not
return null — it raises `ValueError`. -/
theorem schedule_webhook_raises :
    (schedule_campaign ⟨[]⟩ 1 { type := some "webhook" }).2 ≠
      Except.ok none := by decide

/-- C5 counterexample: `validate_trigger_config` accepts a cron config whose
`cron_expression` is not a parseable 5-field cron expression. -/
theorem validate_accepts_unparseable_cron :
    validate_trigger_config
      { type := some "recurring", interval_type := some "cron",
        cron_expression := some "not a cron" } = [] ∧
    cronValid "not a cron" = false := by
  constructor
  · decide
  · decide

/-- C5 (amended): for a Recurring cron config, the validator only checks
that `cron_expression` is present (truthy); it never parses it, so the
error list is empty exactly when the field is non-empty, parseable or
not. -/
theorem validate_cron_requires_presence_only (cfg : TriggerConfig)
    (h1 : cfg.type = some "recurring")
    (h2 : cfg.interval_type = some "cron") :
    validate_trigger_config cfg = [] ↔
      truthyStr cfg.cron_expression = true := by
  obtain ⟨t, ra, it, iv, ce, en, cds⟩ := cfg
  dsimp only at h1 h2
  subst h1
  subst h2
  cases ce with
  | none => simp [validate_trigger_config, truthyStr, TriggerType.ofValue]
  | some s =>
      by_cases hs : s = "" <;>
        simp [validate_trigger_config, truthyStr, TriggerType.ofValue, hs]

/-- C5 witness: a present cron expression makes the validator succeed. -/
theorem validate_cron_requires_presence_only_witness :
    validate_trigger_config
      { type := some "recurring", interval_type := some "cron",
        cron_expression := some "0 12 * * *" } = [] :=
  (validate_cron_requires_presence_only
    { type := some "recurring", interval_type := some "cron",
      cron_expression := some "0 12 * * *" } rfl rfl).mpr (by decide)

/-- C7 counterexample: `validate_trigger_config` accepts a recurring config
whose `interval_value` is a negative integer. -/
theorem validate_accepts_negative_interval_value :
    validate_trigger_config
      { type := some "recurring", interval_type := some "minutes",
        interval_value := some (-3) } = [] ∧
    (-3 : Int) < 0 := by
  constructor
  · decide
  · decide

/-- C7 (amended): for a non-cron Recurring config with a known unit, the
validator checks only Python truthiness of `interval_value`: absent and
zero are rejected, but any nonzero integer — negative included — is
accepted. -/
theorem validate_interval_value_truthy_iff (cfg : TriggerConfig)
    (u : String) (h1 : cfg.type = some "recurring")
    (h2 : cfg.interval_type = some u)
    (h3 : u ∈ (["minutes", "hours", "days", "weeks"] : List String)) :
    validate_trigger_config cfg = [] ↔
      truthyInt cfg.interval_value = true := by
  obtain ⟨t, ra, it, iv, ce, en, cds⟩ := cfg
  dsimp only at h1 h2
  subst h1
  subst h2
  simp only [List.mem_cons, List.mem_singleton, List.not_mem_nil, or_false]
    at h3
  cases iv with
  | none =>
      rcases h3 with rfl | rfl | rfl | rfl <;>
        simp [validate_trigger_config, truthyStr, truthyInt,
          TriggerType.ofValue]
  | some n =>
      by_cases hn : n = 0 <;>
        (rcases h3 with rfl | rfl | rfl | rfl <;>
          simp [validate_trigger_config, truthyStr, truthyInt,
            TriggerType.ofValue, hn])

/-- C7 witness: a positive interval value passes validation. -/
theorem validate_interval_value_truthy_iff_witness :
    validate_trigger_config
      { type := some "recurring", interval_type := some "minutes",
        interval_value := some 15 } = [] :=
  (validate_interval_value_truthy_iff
    { type := some "recurring", interval_type := some "minutes",
      interval_value := some 15 } "minutes" rfl rfl (by decide)).mpr
    (by decide)

/-- C8: two Recurring triggers overlap exactly when `interval_type` and
`interval_value` are both identical; for a second Active campaign of the
same owner (with no quota conflict), identical values produce the overlap
conflict and differing values produce none. -/
theorem recurring_overlap_iff_identical_intervals
    (db : Db) (cid : Nat) (cfg t2 : TriggerConfig) (c1 c2 : Campaign)
    (hf : db.findCampaign cid = some c1)
    (hq : quotaConflicts db c1 = [])
    (hcfg : cfg.type = some "recurring")
    (hothers : otherActiveCampaigns db cid c1.user_id = [c2])
    (ht : c2.config_trigger = some t2)
    (ht2 : t2.type = some "recurring") :
    (check_schedule_overlap cfg t2 = true ↔
      (cfg.interval_type = t2.interval_type ∧
        cfg.interval_value = t2.interval_value)) ∧
    ((cfg.interval_type = t2.interval_type ∧
        cfg.interval_value = t2.interval_value) →
      check_scheduling_conflicts db cid cfg = [overlapMsg c2.name]) ∧
    (¬ (cfg.interval_type = t2.interval_type ∧
        cfg.interval_value = t2.interval_value) →
      check_scheduling_conflicts db cid cfg = []) := by
  have hiff : check_schedule_overlap cfg t2 = true ↔
      (cfg.interval_type = t2.interval_type ∧
        cfg.interval_value = t2.interval_value) := by
    unfold check_schedule_overlap
    rw [if_pos ⟨hcfg, ht2⟩]
    constructor
    · intro h
      by_contra hne
      rw [if_neg hne] at h
      exact Bool.noConfusion h
    · intro h
      rw [if_pos h]
  have hconf : check_scheduling_conflicts db cid cfg =
      (if check_schedule_overlap cfg t2 = true
       then [overlapMsg c2.name] else []) := by
    unfold check_scheduling_conflicts
    rw [hf]
    try dsimp only
    rw [hq]
    unfold overlapConflicts
    rw [if_pos (Or.inr hcfg), hothers]
    rw [List.filterMap_cons, List.filterMap_nil]
    try dsimp only
    rw [ht]
    try dsimp only
    cases hov : check_schedule_overlap cfg t2 <;> simp [hov]
  refine ⟨hiff, fun hid => ?_, fun hne => ?_⟩
  · rw [hconf, if_pos (hiff.mpr hid)]
  · rw [hconf, if_neg (fun hh => hne (hiff.mp hh))]

/-- Recurring trigger of 3 days, for the conflict witness. -/
def days3Trigger : TriggerConfig :=
  { type := some "recurring", interval_type := some "days",
    interval_value := some 3 }

/-- Conflict-checker witness database: campaigns 1 and 2 of the same owner,
campaign 2 Active with a stored 3-day recurring trigger. -/
def conflictDb : Db :=
  { campaigns :=
      [⟨1, "one", 7, CampaignStatus.active, none⟩,
        ⟨2, "two", 7, CampaignStatus.active, some days3Trigger⟩] }

/-- C8 witness: proposing the identical 3-day recurring trigger for
campaign 1 yields exactly the overlap conflict naming campaign two. -/
theorem recurring_overlap_iff_identical_intervals_witness :
    check_scheduling_conflicts conflictDb 1 days3Trigger =
      [overlapMsg "two"] :=
  (recurring_overlap_iff_identical_intervals conflictDb 1 days3Trigger
    days3Trigger ⟨1, "one", 7, CampaignStatus.active, none⟩
    ⟨2, "two", 7, CampaignStatus.active, some days3Trigger⟩
    (by decide) rfl rfl (by decide) rfl rfl).2.1 ⟨rfl, rfl⟩

/-- Witness database for the failing run: one Active campaign, empty
execution table. -/
def failRunDb : Db :=
  { campaigns := [⟨1, "camp", 1, CampaignStatus.active, none⟩] }

/-- C1 witness: a failing run on an Active campaign with a scheduled
trigger produces a failed, stamped execution and one tracked error. -/
theorem run_failure_marks_execution_failed_witness :
    ∃ e : CampaignExecution,
      execute_campaign failRunDb (.failure "boom") 7 0 1
          { type := some "scheduled" } =
        (insertExec failRunDb e,
          [mkTracked "boom" 1 { type := some "scheduled" }]) ∧
      e.status = "failed" ∧ e.error_message = some "boom" ∧
      e.completed_at = some 7 :=
  run_failure_marks_execution_failed_and_is_swallowed failRunDb "boom" 7 0 1
    { type := some "scheduled" } ⟨1, "camp", 1, CampaignStatus.active, none⟩
    (by decide) rfl rfl

/-- Witness database with a paused campaign. -/
def pausedDb : Db :=
  { campaigns := [⟨1, "camp", 1, CampaignStatus.paused, none⟩] }

/-- C2 witness: a fire on the paused campaign changes nothing, and the
manual endpoint record for it stays pending. -/
theorem inactive_campaign_fire_abandoned_pending_witness :
    (∀ cfg, execute_campaign pausedDb RunOutcome.success 5 0 1 cfg =
      (pausedDb, [])) ∧
    ∃ e : CampaignExecution,
      ((execute_campaign_manually pausedDb
          RunOutcome.success 5 0 1 1).1.1.executions) =
        pausedDb.executions ++ [e] ∧
      e.status = "pending" ∧ e.completed_at = none :=
  inactive_campaign_fire_abandoned_pending pausedDb RunOutcome.success 5 0 1 1
    ⟨1, "camp", 1, CampaignStatus.paused, none⟩
    ⟨1, "camp", 1, CampaignStatus.paused, none⟩
    (by decide) (by decide) (by decide)

/-- C4 witness: a fire on the missing campaign id 99 of `twoExecDb` creates
no execution record, and a manual fire on its Active campaign 1 adds two
execution records. -/
theorem executions_created_per_fire_witness :
    (execute_campaign twoExecDb RunOutcome.success 5 0 99
        { type := some "manual" }).1.executions.length =
      twoExecDb.executions.length ∧
    ((execute_campaign_manually twoExecDb
        RunOutcome.success 5 0 1 1).1.1.executions.length) =
      twoExecDb.executions.length + 2 :=
  ⟨(executions_created_per_fire twoExecDb RunOutcome.success 5 0 1 99
      { type := some "manual" } ⟨1, "c", 1, CampaignStatus.active, none⟩
      ⟨1, "c", 1, CampaignStatus.active, none⟩).1 (by decide),
    (executions_created_per_fire twoExecDb RunOutcome.success 5 0 1 1
      { type := some "manual" } ⟨1, "c", 1, CampaignStatus.active, none⟩
      ⟨1, "c", 1, CampaignStatus.active, none⟩).2.2.2
      (by decide) (by decide) rfl⟩

/-- Witness database for the permissive condition clauses. -/
def condDb : Db :=
  { campaigns := [⟨1, "camp", 1, CampaignStatus.active, none⟩] }

/-- C10 witness: a condition list holding one `external_event` clause and
one unrecognized clause evaluates to true and the fire creates a record. -/
theorem permissive_condition_clauses_execute_witness :
    evaluate_conditions ⟨1, "camp", 1, CampaignStatus.active, none⟩ 10
      [{ type := some "external_event" }, { type := some "mystery" }] =
        .ok true ∧
    (execute_campaign condDb RunOutcome.success 5 10 1
        { type := some "condition",
          conditions := [{ type := some "external_event" },
            { type := some "mystery" }] }).1.executions.length =
      condDb.executions.length + 1 :=
  have h := permissive_condition_clauses_execute
    ⟨1, "camp", 1, CampaignStatus.active, none⟩ 10
    [{ type := some "external_event" }, { type := some "mystery" }]
    (by decide)
  ⟨h.1, h.2 condDb RunOutcome.success 5 1
    { type := some "condition",
      conditions := [{ type := some "external_event" },
        { type := some "mystery" }] } (by decide) rfl rfl rfl⟩

end MarketingAgent
